import Mathlib

/-!
Verification of the SpyShoot Entity-Component-System core.

This file gives a shallow embedding of the ECS core of the repository:
the component data records (CoreComponents), the operational methods on
Health and Energy, the per-entity update logic of ProjectileSystem,
BoundarySystem, CollisionSystem and MovementSystem, and the World
entity/system bookkeeping (deferred creation and removal queues,
signature matching).

Numeric fields are embedded as rationals where the JavaScript source
only needs field arithmetic and comparisons; the MovementSystem clamp
genuinely uses a square root, so its state is embedded over the reals.
Mutable JavaScript objects become explicit state passing; JavaScript
Maps keyed by component-type name become lists of names; the identity
of an entity is its id.
-/

/-! ## Component data records (src/components/CoreComponents.js) -/

/-- A two-component vector, used for Projectile.direction and RigidBody forces. -/
structure Vec2 (α : Type) where
  x : α
  y : α
deriving DecidableEq

/-- Transform component: position, rotation and the previous position. -/
structure Transform (α : Type) where
  x : α
  y : α
  rotation : α
  prevX : α
  prevY : α
deriving DecidableEq

/-- Velocity component: velocity vector and the scalar clamp maxSpeed. -/
structure Velocity (α : Type) where
  x : α
  y : α
  maxSpeed : α
deriving DecidableEq

/-- Acceleration component: acceleration rate and multiplicative deceleration. -/
structure Acceleration (α : Type) where
  rate : α
  deceleration : α
deriving DecidableEq

/-- Sprite component: drawing rectangle and visibility (color omitted as draw-only data). -/
structure Sprite (α : Type) where
  width : α
  height : α
  visible : Bool
deriving DecidableEq

/-- RigidBody component: mass, friction and the queue of pending forces. -/
structure RigidBody (α : Type) where
  mass : α
  friction : α
  forces : List (Vec2 α)
deriving DecidableEq

/-- Collider component: AABB extent, offsets and the layer/mask pair. -/
structure Collider (α : Type) where
  width : α
  height : α
  offsetX : α
  offsetY : α
  isTrigger : Bool
  collisionMask : Nat
  collisionLayer : Nat
deriving DecidableEq

/-- Projectile component: speed, fixed direction vector, damage and piercing flag. -/
structure Projectile (α : Type) where
  speed : α
  direction : Vec2 α
  damage : α
  piercing : Bool
deriving DecidableEq

/-- Health component: hit points and the invulnerability flag and timer. -/
structure Health (α : Type) where
  maxHealth : α
  currentHealth : α
  invulnerable : Bool
  invulnerabilityTime : α
deriving DecidableEq

/-- Energy component: energy pool with regeneration and consumption rates. -/
structure Energy (α : Type) where
  maxEnergy : α
  currentEnergy : α
  regenRate : α
  consumptionRate : α
deriving DecidableEq

/-- Score component: accumulated value and multiplier. -/
structure Score (α : Type) where
  value : α
  multiplier : α
deriving DecidableEq

/-- Health.takeDamage: when not invulnerable, clamp the new hit points at 0
and report true; when invulnerable, leave the record unchanged and report false. -/
def Health.takeDamage (h : Health ℚ) (amount : ℚ) : Health ℚ × Bool :=
  if h.invulnerable then (h, false)
  else ({ h with currentHealth := max 0 (h.currentHealth - amount) }, true)

/-- Health.heal: add hit points, clamped at maxHealth. -/
def Health.heal (h : Health ℚ) (amount : ℚ) : Health ℚ :=
  { h with currentHealth := min h.maxHealth (h.currentHealth + amount) }

/-- Health.isDead: the hit points are at or below zero. -/
def Health.isDead (h : Health ℚ) : Bool :=
  decide (h.currentHealth ≤ 0)

/-- Energy.consume: deduct when the pool covers the amount and report true,
otherwise leave the pool unchanged and report false. -/
def Energy.consume (e : Energy ℚ) (amount : ℚ) : Energy ℚ × Bool :=
  if e.currentEnergy ≥ amount then ({ e with currentEnergy := e.currentEnergy - amount }, true)
  else (e, false)

/-- Energy.restore: add energy, clamped at maxEnergy. -/
def Energy.restore (e : Energy ℚ) (amount : ℚ) : Energy ℚ :=
  { e with currentEnergy := min e.maxEnergy (e.currentEnergy + amount) }

/-! ## ProjectileSystem (src/systems/ecs/ProjectileSystem.js)

Per matched entity, each tick sets the velocity to direction times speed,
then requests destruction when the bullet is off-screen: above the screen
using a fixed bullet height of 12, or more than 50 past the bottom, left
or right edge. The returned Bool is the destroy request. -/

def ProjectileSystem.updateEntity (canvasWidth canvasHeight : ℚ)
    (t : Transform ℚ) (v : Velocity ℚ) (p : Projectile ℚ) :
    Velocity ℚ × Bool :=
  let v := { v with x := p.direction.x * p.speed, y := p.direction.y * p.speed }
  let destroyRequest :=
    decide (t.y + 12 < 0) || decide (t.y > canvasHeight + 50) ||
    decide (t.x < -50) || decide (t.x > canvasWidth + 50)
  (v, destroyRequest)

/-! ## BoundarySystem (src/systems/ecs/EnemyAISystem.js, BoundarySystem class)

handlePlayerBoundaries clamps the player to each of the four canvas edges
in turn and, when a Velocity component is present, dampens the bounced
velocity component to 30 percent of its magnitude (0.3 = 3/10). The four
checks run sequentially on the already-updated transform, exactly as in
the source. -/

/-- The left-edge check of handlePlayerBoundaries (lines 88-93 of the source). -/
def BoundarySystem.bounceLeft (st : Transform ℚ × Option (Velocity ℚ)) :
    Transform ℚ × Option (Velocity ℚ) :=
  if st.1.x < 0 then
    ({ st.1 with x := 0 }, st.2.map fun v => { v with x := |v.x| * (3/10) })
  else st

/-- The right-edge check of handlePlayerBoundaries (lines 95-100). -/
def BoundarySystem.bounceRight (canvasWidth : ℚ) (sp : Sprite ℚ)
    (st : Transform ℚ × Option (Velocity ℚ)) :
    Transform ℚ × Option (Velocity ℚ) :=
  if st.1.x + sp.width > canvasWidth then
    ({ st.1 with x := canvasWidth - sp.width },
     st.2.map fun v => { v with x := -|v.x| * (3/10) })
  else st

/-- The top-edge check of handlePlayerBoundaries (lines 102-107). -/
def BoundarySystem.bounceTop (st : Transform ℚ × Option (Velocity ℚ)) :
    Transform ℚ × Option (Velocity ℚ) :=
  if st.1.y < 0 then
    ({ st.1 with y := 0 }, st.2.map fun v => { v with y := |v.y| * (3/10) })
  else st

/-- The bottom-edge check of handlePlayerBoundaries (lines 109-114). -/
def BoundarySystem.bounceBottom (canvasHeight : ℚ) (sp : Sprite ℚ)
    (st : Transform ℚ × Option (Velocity ℚ)) :
    Transform ℚ × Option (Velocity ℚ) :=
  if st.1.y + sp.height > canvasHeight then
    ({ st.1 with y := canvasHeight - sp.height },
     st.2.map fun v => { v with y := -|v.y| * (3/10) })
  else st

def BoundarySystem.handlePlayerBoundaries (canvasWidth canvasHeight : ℚ)
    (t0 : Transform ℚ) (sp : Sprite ℚ) (v0 : Option (Velocity ℚ)) :
    Transform ℚ × Option (Velocity ℚ) :=
  BoundarySystem.bounceBottom canvasHeight sp
    (BoundarySystem.bounceTop
      (BoundarySystem.bounceRight canvasWidth sp
        (BoundarySystem.bounceLeft (t0, v0))))

/-- handleEntityBoundaries: non-player entities are destroy-requested once
their sprite rectangle is more than 50 outside any canvas edge. -/
def BoundarySystem.handleEntityBoundaries (canvasWidth canvasHeight : ℚ)
    (t : Transform ℚ) (sp : Sprite ℚ) : Bool :=
  decide (t.x + sp.width < -50) || decide (t.x > canvasWidth + 50) ||
  decide (t.y + sp.height < -50) || decide (t.y > canvasHeight + 50)

/-! ## CollisionSystem (CollisionSystem class, ECS variant)

handleCollision works on the component view of the two entities of a
colliding pair: the optional Health, Score and Energy components, plus a
flag recording whether entity.destroy() has been requested (destroy also
clears all components, as Entity.destroy does). The sequencing follows
the source line by line: symmetric 1-point damage when both carry Health,
then the two scoring branches (the second branch reads the score the
first branch may already have updated), then the single energy-transfer
branch for the first entity of the pair, then destruction of dead parties. -/

structure CollEntity where
  health : Option (Health ℚ)
  score : Option (Score ℚ)
  energy : Option (Energy ℚ)
  destroyed : Bool
deriving DecidableEq

/-- entity.destroy() as visible on the component view: all components
cleared and the entity marked destroyed (active = false). -/
def CollEntity.destroy (_e : CollEntity) : CollEntity :=
  { health := none, score := none, energy := none, destroyed := true }

def CollisionSystem.handleCollision (a0 b0 : CollEntity) : CollEntity × CollEntity :=
  -- if (healthA && healthB) { healthA.takeDamage(1); healthB.takeDamage(1); }
  let damaged : CollEntity × CollEntity :=
    match a0.health, b0.health with
    | some ha, some hb =>
        ({ a0 with health := some (ha.takeDamage 1).1 },
         { b0 with health := some (hb.takeDamage 1).1 })
    | _, _ => (a0, b0)
  let a := damaged.1
  let b := damaged.2
  -- if (scoreA && healthB && healthB.isDead()) scoreA.value += scoreB ? scoreB.value : 10
  let a :=
    match a.score, b.health with
    | some sa, some hb =>
        if hb.isDead then
          { a with score := some { sa with
              value := sa.value + (match b.score with | some sb => sb.value | none => 10) } }
        else a
    | _, _ => a
  -- if (scoreB && healthA && healthA.isDead()) scoreB.value += scoreA ? scoreA.value : 10
  let b :=
    match b.score, a.health with
    | some sb, some ha =>
        if ha.isDead then
          { b with score := some { sb with
              value := sb.value + (match a.score with | some sa => sa.value | none => 10) } }
        else b
    | _, _ => b
  -- if (energyA && scoreB && healthB && healthB.isDead()) energyA.restore(scoreB.value)
  let a :=
    match a.energy, b.score, b.health with
    | some ea, some sb, some hb =>
        if hb.isDead then { a with energy := some (ea.restore sb.value) } else a
    | _, _, _ => a
  -- if (healthA && healthA.isDead()) entityA.destroy(); likewise for B
  let a :=
    match a.health with
    | some ha => if ha.isDead then a.destroy else a
    | none => a
  let b :=
    match b.health with
    | some hb => if hb.isDead then b.destroy else b
    | none => b
  (a, b)

/-! ## The ECS core (src/core/EntityComponentSystem.js)

An Entity is its id, the set of component-type names it currently holds
(the key set of its components Map; the component values play no role in
registration) and the active flag. A System holds its required component
names, its priority and the ids of its matched entities. The World holds
the id-keyed entity table, the priority-ordered system list and the two
deferred queues. The name-keyed systems Map of the source serves only
getSystem lookups and is omitted. -/

structure Entity where
  id : Nat
  components : List String
  active : Bool
deriving DecidableEq

/-- Entity.hasComponent: the components Map has the type name as a key. -/
def Entity.hasComponent (e : Entity) (c : String) : Bool :=
  decide (c ∈ e.components)

/-- Entity.addComponent: Map.set by type name; an existing key keeps its
place (last write wins on the value), a new key is appended. -/
def Entity.addComponent (e : Entity) (c : String) : Entity :=
  if c ∈ e.components then e else { e with components := e.components ++ [c] }

/-- Entity.removeComponent: Map.delete by type name. -/
def Entity.removeComponent (e : Entity) (c : String) : Entity :=
  { e with components := e.components.erase c }

/-- Entity.destroy: flip active to false and clear all components. It does
not notify the World or any System. -/
def Entity.destroy (e : Entity) : Entity :=
  { e with active := false, components := [] }

structure System where
  requiredComponents : List String
  priority : Int
  entities : List Nat
deriving DecidableEq

/-- System.matchesRequirements: every required component name is present. -/
def System.matchesRequirements (s : System) (e : Entity) : Bool :=
  s.requiredComponents.all fun c => e.hasComponent c

/-- System.addEntity: insert into the matched set (a JavaScript Set, so
idempotent) only when the signature matches. -/
def System.addEntity (s : System) (e : Entity) : System :=
  if s.matchesRequirements e then
    if e.id ∈ s.entities then s else { s with entities := s.entities ++ [e.id] }
  else s

/-- System.removeEntity: delete from the matched set. -/
def System.removeEntity (s : System) (eid : Nat) : System :=
  { s with entities := s.entities.erase eid }

structure World where
  entities : List (Nat × Entity)
  systemsArray : List System
  toAdd : List Entity
  toRemove : List Nat
  nextId : Nat
deriving DecidableEq

/-- Map.set on the entity table: replace the matching key or append. -/
def tableSet : List (Nat × Entity) → Entity → List (Nat × Entity)
  | [], e => [(e.id, e)]
  | p :: ps, e => if p.1 = e.id then (e.id, e) :: ps else p :: tableSet ps e

/-- Map.delete on the entity table. -/
def tableDelete : List (Nat × Entity) → Nat → List (Nat × Entity)
  | [], _ => []
  | p :: ps, i => if p.1 = i then ps else p :: tableDelete ps i

/-- World.createEntity: allocate a fresh entity, queue it for addition and
return it; it is not yet in the table nor in any system. The source draws
a random id; the model draws the next counter value, which is where the
freshness of ids lives. -/
def World.createEntity (w : World) : Entity × World :=
  let e : Entity := { id := w.nextId, components := [], active := true }
  (e, { w with toAdd := w.toAdd ++ [e], nextId := w.nextId + 1 })

/-- World.addEntity: put the entity in the table and offer it to every
system; each system keeps it only when the signature matches. -/
def World.addEntity (w : World) (e : Entity) : World :=
  { w with entities := tableSet w.entities e,
           systemsArray := w.systemsArray.map fun s => s.addEntity e }

/-- World.removeEntity: queue for deferred removal when present in the table. -/
def World.removeEntity (w : World) (eid : Nat) : World :=
  if (w.entities.map Prod.fst).contains eid then
    { w with toRemove := w.toRemove ++ [eid] }
  else w

/-- The addSystem back-fill loop: offer every entity already in the table
to the new system. -/
def backfillSystem (s : System) (tbl : List (Nat × Entity)) : System :=
  tbl.foldl (fun s p => s.addEntity p.2) s

/-- Insertion into the priority-ascending system list (the source pushes
then re-sorts by priority; only the ascending order matters). -/
def insertByPriority (s : System) : List System → List System
  | [] => [s]
  | t :: ts => if t.priority ≤ s.priority then t :: insertByPriority s ts else s :: t :: ts

/-- World.addSystem: back-fill the new system with all current entities and
place it in the priority-ordered list. -/
def World.addSystem (w : World) (s : System) : World :=
  { w with systemsArray := insertByPriority (backfillSystem s w.entities) w.systemsArray }

/-- The world-level view of entity.removeComponent on a live entity: the
table entry is updated; no system set is touched, because no code path
re-evaluates signatures on component removal. -/
def World.removeComponentFrom (w : World) (eid : Nat) (c : String) : World :=
  { w with entities := w.entities.map fun p =>
      if p.1 = eid then (p.1, p.2.removeComponent c) else p }

/-- The pending-addition flush at the start of World.update. -/
def World.flushAdds (w : World) : World :=
  let w1 := w.toAdd.foldl World.addEntity w
  { w1 with toAdd := [] }

/-- One step of the pending-removal flush: the queued id is removed from
every system and from the table (the source then calls entity.destroy()
on the dropped object). -/
def World.removeStep (w : World) (eid : Nat) : World :=
  { w with systemsArray := w.systemsArray.map fun s => s.removeEntity eid,
           entities := tableDelete w.entities eid }

/-- The pending-removal flush at the start of World.update. -/
def World.flushRemoves (w : World) : World :=
  let w1 := w.toRemove.foldl World.removeStep w
  { w1 with toRemove := [] }

/-- What a system may do to the World while it runs inside update:
create an entity through the factory (createEntity plus addComponent calls
on the still-queued entity), call entity.destroy() directly on a live
entity, or call world.removeEntity. The repository systems use only the
first two. -/
inductive GameAction where
  | create (comps : List String)
  | destroyEntity (eid : Nat)
  | queueRemove (eid : Nat)
deriving DecidableEq

def World.applyAction (w : World) : GameAction → World
  | GameAction.create comps =>
      let e : Entity := { id := w.nextId, components := comps, active := true }
      { w with toAdd := w.toAdd ++ [e], nextId := w.nextId + 1 }
  | GameAction.destroyEntity eid =>
      { w with entities := w.entities.map fun p =>
          if p.1 = eid then (p.1, p.2.destroy) else p }
  | GameAction.queueRemove eid => w.removeEntity eid

/-- World.update: flush queued additions, flush queued removals, then run
the systems in priority order. The systems themselves are abstracted by
the list of World-visible actions they perform during the pass. -/
def World.update (w : World) (actions : List GameAction) : World :=
  actions.foldl World.applyAction w.flushAdds.flushRemoves

/-! ## MovementSystem (src/systems/ecs/MovementSystem.js)

The movement step divides the frame delta by 1000, applies the optional
Acceleration deceleration factor, applies and clears the optional
RigidBody forces and friction, clamps the velocity magnitude to maxSpeed
and integrates the position at a 60 fps baseline. The magnitude clamp is
a genuine Euclidean norm, so this state is embedded over the reals. -/

structure MoveEnt where
  transform : Transform ℝ
  velocity : Velocity ℝ
  acceleration : Option (Acceleration ℝ)
  rigidBody : Option (RigidBody ℝ)

/-- The velocity produced by the acceleration and rigid-body phases of the
movement step, before the maxSpeed clamp (lines 26-43 of the source). -/
noncomputable def MovementSystem.preClampVelocity (deltaTime : ℝ) (e : MoveEnt) : Velocity ℝ :=
  let deltaSeconds := deltaTime / 1000
  let v :=
    match e.acceleration with
    | some a => { e.velocity with x := e.velocity.x * a.deceleration,
                                  y := e.velocity.y * a.deceleration }
    | none => e.velocity
  match e.rigidBody with
  | some rb =>
      let v := rb.forces.foldl
        (fun v f => { v with x := v.x + f.x / rb.mass * deltaSeconds,
                             y := v.y + f.y / rb.mass * deltaSeconds }) v
      { v with x := v.x * rb.friction, y := v.y * rb.friction }
  | none => v

/-- The maxSpeed clamp (lines 45-50 of the source): when the Euclidean
magnitude exceeds maxSpeed, rescale both components by maxSpeed over the
magnitude. -/
noncomputable def MovementSystem.clampVelocity (v : Velocity ℝ) : Velocity ℝ :=
  let currentSpeed := Real.sqrt (v.x * v.x + v.y * v.y)
  if currentSpeed > v.maxSpeed then
    { v with x := v.x / currentSpeed * v.maxSpeed,
             y := v.y / currentSpeed * v.maxSpeed }
  else v

/-- One MovementSystem step on one matched entity: snapshot the previous
position, run the velocity phases and the clamp, clear the force queue and
integrate the position by velocity times (deltaTime/1000) times 60. -/
noncomputable def MovementSystem.updateEntity (deltaTime : ℝ) (e : MoveEnt) : MoveEnt :=
  let deltaSeconds := deltaTime / 1000
  let v := MovementSystem.clampVelocity (MovementSystem.preClampVelocity deltaTime e)
  { transform := { e.transform with
      prevX := e.transform.x, prevY := e.transform.y,
      x := e.transform.x + v.x * deltaSeconds * 60,
      y := e.transform.y + v.y * deltaSeconds * 60 },
    velocity := v,
    acceleration := e.acceleration,
    rigidBody := e.rigidBody.map fun rb => { rb with forces := [] } }

/-! ## Concrete instances used by witnesses and counterexamples -/

/-- A Health record at 5 of 10 hit points, vulnerable. -/
def healthW : Health ℚ := { maxHealth := 10, currentHealth := 5, invulnerable := false, invulnerabilityTime := 0 }

/-- A bullet transform at x = 400, y = -20: partly above the top edge but
not yet 50 beyond it. -/
def bulletT : Transform ℚ := { x := 400, y := -20, rotation := 0, prevX := 400, prevY := -12 }

/-- The default bullet velocity record. -/
def bulletV : Velocity ℚ := { x := 0, y := 0, maxSpeed := 5 }

/-- The default Projectile record: speed 8, direction straight up. -/
def bulletP : Projectile ℚ := { speed := 8, direction := { x := 0, y := -1 }, damage := 1, piercing := false }

/-- A player transform exactly on the left edge, x = 0. -/
def playerT0 : Transform ℚ := { x := 0, y := 300, rotation := 0, prevX := 1, prevY := 300 }

/-- A player sprite of 40 by 30. -/
def playerSp : Sprite ℚ := { width := 40, height := 30, visible := true }

/-- A player velocity moving left at speed 1. -/
def playerV0 : Velocity ℚ := { x := -1, y := 0, maxSpeed := 5 }

/-- A player transform beyond the left edge, x = -5. -/
def playerT1 : Transform ℚ := { x := -5, y := 300, rotation := 0, prevX := 0, prevY := 300 }

/-- A player velocity moving left at speed 2. -/
def playerV1 : Velocity ℚ := { x := -2, y := 0, maxSpeed := 5 }

/-- Pair member A for the collision counterexample: Health 1 (will die) and Score 100. -/
def collA : CollEntity :=
  { health := some { maxHealth := 1, currentHealth := 1, invulnerable := false, invulnerabilityTime := 0 },
    score := some { value := 100, multiplier := 1 },
    energy := none, destroyed := false }

/-- Pair member B for the collision counterexample: Health 2 (survives),
Score 0 and Energy 50 of 100. -/
def collB : CollEntity :=
  { health := some { maxHealth := 2, currentHealth := 2, invulnerable := false, invulnerabilityTime := 0 },
    score := some { value := 0, multiplier := 1 },
    energy := some { maxEnergy := 100, currentEnergy := 50, regenRate := 1/2, consumptionRate := 1 },
    destroyed := false }

/-- Pair member A for the amended collision claim: survives with Health 2,
Score 0 and Energy 50 of 100. -/
def collA2 : CollEntity :=
  { health := some { maxHealth := 2, currentHealth := 2, invulnerable := false, invulnerabilityTime := 0 },
    score := some { value := 0, multiplier := 1 },
    energy := some { maxEnergy := 100, currentEnergy := 50, regenRate := 1/2, consumptionRate := 1 },
    destroyed := false }

/-- Pair member B for the amended collision claim: Health 1 (dies) and Score 100. -/
def collB2 : CollEntity :=
  { health := some { maxHealth := 1, currentHealth := 1, invulnerable := false, invulnerabilityTime := 0 },
    score := some { value := 100, multiplier := 1 },
    energy := none, destroyed := false }

/-- An entity holding a Transform component, registered as id 0. -/
def entC1 : Entity := { id := 0, components := ["Transform"], active := true }

/-- A system requiring Transform whose matched set holds entity 0. -/
def sysC1 : System := { requiredComponents := ["Transform"], priority := 10, entities := [0] }

/-- A world in which entity 0 is live in the table and matched by the one
system; the deferred queues are empty and ids below 1 are in use. -/
def worldC1 : World :=
  { entities := [(0, entC1)], systemsArray := [sysC1], toAdd := [], toRemove := [], nextId := 1 }

/-- The world after an update pass during which a system called destroy()
on entity 0. -/
def worldC1Destroyed : World := worldC1.update [GameAction.destroyEntity 0]

/-- The state at the start of the following update: both flush phases of
the next World.update call have run. -/
def worldC1Next : World := worldC1Destroyed.flushAdds.flushRemoves

/-- A fresh system requiring Transform with an empty matched set. -/
def sysW : System := { requiredComponents := ["Transform"], priority := 10, entities := [] }

/-- An empty world holding only the system sysW. -/
def worldFresh : World :=
  { entities := [], systemsArray := [sysW], toAdd := [], toRemove := [], nextId := 0 }

/-- A movement entity with velocity (6, 8) and maxSpeed 5: the clamp engages. -/
noncomputable def moveEntW : MoveEnt :=
  { transform := { x := 0, y := 0, rotation := 0, prevX := 0, prevY := 0 },
    velocity := { x := 6, y := 8, maxSpeed := 5 },
    acceleration := none, rigidBody := none }

/-- A movement entity with velocity (3, 4) and maxSpeed 5: magnitude exactly at the clamp. -/
noncomputable def moveEntW2 : MoveEnt :=
  { transform := { x := 10, y := 20, rotation := 0, prevX := 10, prevY := 20 },
    velocity := { x := 3, y := 4, maxSpeed := 5 },
    acceleration := none, rigidBody := none }

/-! ## Theorems -/

/-- The left-edge bounce does nothing when the player has not crossed x = 0. -/
lemma bounceLeft_neg (st : Transform ℚ × Option (Velocity ℚ)) (h : ¬ st.1.x < 0) :
    BoundarySystem.bounceLeft st = st := by
  simp [BoundarySystem.bounceLeft, h]

/-- The left-edge bounce clamps and dampens when the player has crossed x = 0. -/
lemma bounceLeft_pos (t : Transform ℚ) (v : Velocity ℚ) (h : t.x < 0) :
    BoundarySystem.bounceLeft (t, some v) =
      ({ t with x := 0 }, some { v with x := |v.x| * (3/10) }) := by
  simp [BoundarySystem.bounceLeft, h]

/-- The right-edge bounce does nothing when the sprite is inside the right edge. -/
lemma bounceRight_neg (W : ℚ) (sp : Sprite ℚ) (st : Transform ℚ × Option (Velocity ℚ))
    (h : ¬ st.1.x + sp.width > W) : BoundarySystem.bounceRight W sp st = st := by
  simp [BoundarySystem.bounceRight, h]

/-- The top-edge bounce does nothing when the player is below y = 0. -/
lemma bounceTop_neg (st : Transform ℚ × Option (Velocity ℚ)) (h : ¬ st.1.y < 0) :
    BoundarySystem.bounceTop st = st := by
  simp [BoundarySystem.bounceTop, h]

/-- The bottom-edge bounce does nothing when the sprite is above the bottom edge. -/
lemma bounceBottom_neg (H : ℚ) (sp : Sprite ℚ) (st : Transform ℚ × Option (Velocity ℚ))
    (h : ¬ st.1.y + sp.height > H) : BoundarySystem.bounceBottom H sp st = st := by
  simp [BoundarySystem.bounceBottom, h]

/-- Claim C9: for a Health component with 0 <= currentHealth <= maxHealth and a
nonnegative amount, takeDamage and heal keep currentHealth between 0 and
maxHealth (takeDamage clamps at 0, heal clamps at maxHealth); when
invulnerable, takeDamage reports false and leaves the record unchanged, and
when vulnerable it reports true. -/
theorem health_damage_heal_invariant (h : Health ℚ) (amount : ℚ)
    (h0 : 0 ≤ h.currentHealth) (h1 : h.currentHealth ≤ h.maxHealth) (ha : 0 ≤ amount) :
    (0 ≤ (h.takeDamage amount).1.currentHealth ∧
       (h.takeDamage amount).1.currentHealth ≤ (h.takeDamage amount).1.maxHealth) ∧
    (0 ≤ (h.heal amount).currentHealth ∧
       (h.heal amount).currentHealth ≤ (h.heal amount).maxHealth) ∧
    (h.invulnerable = true → (h.takeDamage amount).2 = false ∧ (h.takeDamage amount).1 = h) ∧
    (h.invulnerable = false → (h.takeDamage amount).2 = true) := by
  have hmax : (0:ℚ) ≤ h.maxHealth := le_trans h0 h1
  have hheal : 0 ≤ (h.heal amount).currentHealth ∧
      (h.heal amount).currentHealth ≤ (h.heal amount).maxHealth := by
    constructor
    · exact le_min hmax (by linarith)
    · exact min_le_left _ _
  cases hinv : h.invulnerable
  · refine ⟨?_, hheal, by simp [hinv], fun _ => by simp [Health.takeDamage, hinv]⟩
    simp only [Health.takeDamage, hinv, Bool.false_eq_true, if_false]
    exact ⟨le_max_left _ _, max_le hmax (by linarith)⟩
  · refine ⟨?_, hheal, fun _ => by simp [Health.takeDamage, hinv], by simp [hinv]⟩
    simp only [Health.takeDamage, hinv, if_true]
    exact ⟨h0, h1⟩

/-- Witness for claim C9 at a Health record of 5 of 10 hit points and amount 3. -/
theorem health_damage_heal_invariant_witness :
    (0 ≤ healthW.currentHealth ∧ healthW.currentHealth ≤ healthW.maxHealth ∧ 0 ≤ (3:ℚ)) ∧
    ((0 ≤ (healthW.takeDamage 3).1.currentHealth ∧
       (healthW.takeDamage 3).1.currentHealth ≤ (healthW.takeDamage 3).1.maxHealth) ∧
     (0 ≤ (healthW.heal 3).currentHealth ∧
       (healthW.heal 3).currentHealth ≤ (healthW.heal 3).maxHealth) ∧
     (healthW.invulnerable = true → (healthW.takeDamage 3).2 = false ∧ (healthW.takeDamage 3).1 = healthW) ∧
     (healthW.invulnerable = false → (healthW.takeDamage 3).2 = true)) :=
  ⟨⟨by decide, by decide, by decide⟩,
   health_damage_heal_invariant healthW 3 (by decide) (by decide) (by decide)⟩

/-- Claim C10: Energy.consume deducts exactly the amount and reports true
precisely when the pool covers the amount; otherwise it reports false and
leaves the record unchanged. -/
theorem energy_consume_atomic (e : Energy ℚ) (amount : ℚ) :
    (((e.consume amount).2 = true ∧
        (e.consume amount).1.currentEnergy = e.currentEnergy - amount) ↔
      e.currentEnergy ≥ amount) ∧
    (((e.consume amount).2 = false ∧ (e.consume amount).1 = e) ↔
      ¬ e.currentEnergy ≥ amount) := by
  by_cases hc : e.currentEnergy ≥ amount <;> simp [Energy.consume, hc]

/-- Claim C4 is refuted at a bullet at x = 400, y = -20 on an 800 by 600
canvas: the code already requests destruction (since -20 + 12 < 0), although
the bullet has not yet passed 50 beyond the top edge under the 12-high
assumption (-20 is not below -12 - 50). -/
theorem projectile_top_margin_cex :
    (ProjectileSystem.updateEntity 800 600 bulletT bulletV bulletP).2 = true ∧
    ¬ (bulletT.y < -12 - 50) := by
  constructor
  · simp only [ProjectileSystem.updateEntity, bulletT]
    norm_num
  · norm_num [bulletT]

/-- Claim C4 amended: ProjectileSystem requests destruction exactly when the
bullet is above the top edge under the fixed 12 bullet-height assumption with
no extra margin (y < -12), or more than 50 beyond the bottom, left or right
edge; a bullet moving straight up is destroyed on the first tick with y < -12. -/
theorem projectile_destroy_iff (W H : ℚ) (t : Transform ℚ) (v : Velocity ℚ) (p : Projectile ℚ) :
    (ProjectileSystem.updateEntity W H t v p).2 = true ↔
      (t.y < -12 ∨ t.y > H + 50 ∨ t.x < -50 ∨ t.x > W + 50) := by
  have htop : t.y + 12 < 0 ↔ t.y < -12 := by constructor <;> intro <;> linarith
  simp only [ProjectileSystem.updateEntity, Bool.or_eq_true, decide_eq_true_eq, htop]
  tauto

/-- Claim C6 is refuted at a player exactly on the left edge (x = 0) moving
left at speed 1: the boundary code triggers only on x < 0, so the velocity
is left unchanged at -1 instead of becoming +0.3. -/
theorem boundary_bounce_at_zero_cex :
    (BoundarySystem.handlePlayerBoundaries 800 600 playerT0 playerSp (some playerV0)).1.x = 0 ∧
    (BoundarySystem.handlePlayerBoundaries 800 600 playerT0 playerSp (some playerV0)).2 =
      some playerV0 ∧
    ¬ playerV0.x = (3/10) * 1 := by
  have hres : BoundarySystem.handlePlayerBoundaries 800 600 playerT0 playerSp (some playerV0) =
      (playerT0, some playerV0) := by
    rw [BoundarySystem.handlePlayerBoundaries,
      bounceLeft_neg _ (by norm_num [playerT0]),
      bounceRight_neg _ _ _ (by norm_num [playerT0, playerSp]),
      bounceTop_neg _ (by norm_num [playerT0]),
      bounceBottom_neg _ _ _ (by norm_num [playerT0, playerSp])]
  refine ⟨by rw [hres]; norm_num [playerT0], by rw [hres], by norm_num [playerV0]⟩

/-- Claim C6 amended: a player strictly beyond the left edge (x < 0, having
crossed the boundary) moving left with horizontal speed v = -vx ends the
BoundarySystem pass clamped at x = 0 with horizontal velocity +0.3 times v
(per the source, 0.3 times the absolute incoming horizontal speed); the
other three edges behave analogously with the perpendicular component. -/
theorem boundary_bounce_left (W H : ℚ) (t : Transform ℚ) (sp : Sprite ℚ) (v : Velocity ℚ)
    (hx : t.x < 0) (hv : v.x < 0) (hw : sp.width ≤ W)
    (hy0 : 0 ≤ t.y) (hy1 : t.y + sp.height ≤ H) :
    (BoundarySystem.handlePlayerBoundaries W H t sp (some v)).1.x = 0 ∧
    (BoundarySystem.handlePlayerBoundaries W H t sp (some v)).2 =
      some { v with x := (3/10) * (-v.x) } := by
  have hres : BoundarySystem.handlePlayerBoundaries W H t sp (some v) =
      ({ t with x := 0 }, some { v with x := |v.x| * (3/10) }) := by
    rw [BoundarySystem.handlePlayerBoundaries,
      bounceLeft_pos _ _ hx,
      bounceRight_neg _ _ _ (by simp; linarith),
      bounceTop_neg _ (by simpa using not_lt.mpr hy0),
      bounceBottom_neg _ _ _ (by simp; linarith)]
  rw [hres, abs_of_neg hv, mul_comm]
  exact ⟨rfl, rfl⟩

/-- Witness for the amended claim C6 at a player at x = -5 moving left at speed 2. -/
theorem boundary_bounce_left_witness :
    (playerT1.x < 0 ∧ playerV1.x < 0 ∧ playerSp.width ≤ (800:ℚ) ∧
      0 ≤ playerT1.y ∧ playerT1.y + playerSp.height ≤ (600:ℚ)) ∧
    ((BoundarySystem.handlePlayerBoundaries 800 600 playerT1 playerSp (some playerV1)).1.x = 0 ∧
     (BoundarySystem.handlePlayerBoundaries 800 600 playerT1 playerSp (some playerV1)).2 =
       some { playerV1 with x := (3/10) * (-playerV1.x) }) :=
  ⟨⟨by norm_num [playerT1], by norm_num [playerV1], by norm_num [playerSp],
    by norm_num [playerT1], by norm_num [playerT1, playerSp]⟩,
   boundary_bounce_left 800 600 playerT1 playerSp playerV1
     (by norm_num [playerT1]) (by norm_num [playerV1]) (by norm_num [playerSp])
     (by norm_num [playerT1]) (by norm_num [playerT1, playerSp])⟩

/-- Claim C5 is refuted when the survivor is the second entity of the pair:
collA (Health 1, Score 100) collides with collB (Health 2, Score 0, Energy
50 of 100). A dies, B survives, B gets the 100 points, but B keeps energy
50: the energy-transfer branch exists only for the first entity of the
pair, so it is not independent of which member survives (the claim would
require B to end at energy 100). -/
theorem collision_energy_asymmetry_cex :
    (CollisionSystem.handleCollision collA collB).1.destroyed = true ∧
    (CollisionSystem.handleCollision collA collB).2.destroyed = false ∧
    (CollisionSystem.handleCollision collA collB).2.score =
      some { value := 100, multiplier := 1 } ∧
    (CollisionSystem.handleCollision collA collB).2.energy =
      some { maxEnergy := 100, currentEnergy := 50, regenRate := 1/2, consumptionRate := 1 } ∧
    ¬ (50:ℚ) = 100 := by
  norm_num [CollisionSystem.handleCollision, collA, collB, Health.takeDamage,
    Health.isDead, CollEntity.destroy]

/-- Claim C5 amended: the energy transfer is one-directional. When the first
entity of the checked pair survives the symmetric 1-point damage, carries
Energy, and the second entity dies carrying Score, the first entity has its
energy restored by the score value of the second (and, when it also carries
Score, its score grows by the same value); the second entity is destroyed
and the first is not. No transfer happens in the mirrored situation. -/
theorem collision_energy_first_survivor (a b : CollEntity) (hA hB : Health ℚ)
    (eA : Energy ℚ) (sB : Score ℚ)
    (hah : a.health = some hA) (hbh : b.health = some hB)
    (hae : a.energy = some eA) (hbs : b.score = some sB)
    (hbdead : ((hB.takeDamage 1).1).isDead = true)
    (halive : ((hA.takeDamage 1).1).isDead = false)
    (hadest : a.destroyed = false) :
    (CollisionSystem.handleCollision a b).1.energy = some (eA.restore sB.value) ∧
    (CollisionSystem.handleCollision a b).1.destroyed = false ∧
    (CollisionSystem.handleCollision a b).2.destroyed = true ∧
    (∀ sA, a.score = some sA →
      (CollisionSystem.handleCollision a b).1.score =
        some { sA with value := sA.value + sB.value }) := by
  cases has : a.score with
  | none =>
      simp [CollisionSystem.handleCollision, hah, hbh, hae, hbs, has,
        hbdead, halive, hadest, CollEntity.destroy]
  | some sa =>
      simp [CollisionSystem.handleCollision, hah, hbh, hae, hbs, has,
        hbdead, halive, hadest, CollEntity.destroy]

/-- Witness for the amended claim C5 at the values of the claim example:
the survivor (first of the pair) has Score 0 and Energy 50 of 100, the
defeated second entity has Health 1 and Score 100; afterwards the survivor
has Score 100 and Energy 100. -/
theorem collision_energy_first_survivor_witness :
    (collA2.health = some { maxHealth := 2, currentHealth := 2, invulnerable := false, invulnerabilityTime := 0 } ∧
     collB2.health = some { maxHealth := 1, currentHealth := 1, invulnerable := false, invulnerabilityTime := 0 } ∧
     collA2.energy = some { maxEnergy := 100, currentEnergy := 50, regenRate := 1/2, consumptionRate := 1 } ∧
     collB2.score = some { value := 100, multiplier := 1 } ∧
     collA2.destroyed = false) ∧
    ((CollisionSystem.handleCollision collA2 collB2).1.energy =
       some (Energy.restore { maxEnergy := 100, currentEnergy := 50, regenRate := 1/2, consumptionRate := 1 } 100) ∧
     (CollisionSystem.handleCollision collA2 collB2).1.destroyed = false ∧
     (CollisionSystem.handleCollision collA2 collB2).2.destroyed = true ∧
     (CollisionSystem.handleCollision collA2 collB2).1.score =
       some { value := 0 + 100, multiplier := 1 }) := by
  have hconc := collision_energy_first_survivor collA2 collB2
    { maxHealth := 2, currentHealth := 2, invulnerable := false, invulnerabilityTime := 0 }
    { maxHealth := 1, currentHealth := 1, invulnerable := false, invulnerabilityTime := 0 }
    { maxEnergy := 100, currentEnergy := 50, regenRate := 1/2, consumptionRate := 1 }
    { value := 100, multiplier := 1 }
    rfl rfl rfl rfl
    (by norm_num [Health.takeDamage, Health.isDead])
    (by norm_num [Health.takeDamage, Health.isDead])
    rfl
  exact ⟨⟨rfl, rfl, rfl, rfl, rfl⟩,
    hconc.1, hconc.2.1, hconc.2.2.1,
    hconc.2.2.2 { value := 0, multiplier := 1 } rfl⟩

/-- System.addEntity never changes the required-component signature. -/
lemma addEntity_required (s : System) (a : Entity) :
    (s.addEntity a).requiredComponents = s.requiredComponents := by
  unfold System.addEntity
  split
  · split <;> rfl
  · rfl

/-- Signature matching is unaffected by registering entities. -/
lemma matches_addEntity (s : System) (a b : Entity) :
    (s.addEntity a).matchesRequirements b = s.matchesRequirements b := by
  unfold System.matchesRequirements
  rw [addEntity_required]

/-- Membership in a matched set after one addEntity offer. -/
lemma mem_addEntity_iff (s : System) (a : Entity) (i : Nat) :
    i ∈ (s.addEntity a).entities ↔
      i ∈ s.entities ∨ (i = a.id ∧ s.matchesRequirements a = true) := by
  unfold System.addEntity
  by_cases hm : s.matchesRequirements a = true
  · by_cases hin : a.id ∈ s.entities
    · simp only [hm, if_true, hin, and_true]
      constructor
      · exact Or.inl
      · rintro (h | rfl)
        · exact h
        · exact hin
    · simp only [hm, if_true, hin, if_false, and_true, List.mem_append,
        List.mem_singleton]
  · simp [hm]

/-- Membership in a matched set after a whole list of addEntity offers. -/
lemma mem_foldl_addEntity (l : List Entity) (s : System) (i : Nat) :
    i ∈ (l.foldl System.addEntity s).entities ↔
      i ∈ s.entities ∨ ∃ a, a ∈ l ∧ i = a.id ∧ s.matchesRequirements a = true := by
  induction l generalizing s with
  | nil => simp
  | cons a t ih =>
    rw [List.foldl_cons, ih, mem_addEntity_iff]
    simp only [matches_addEntity]
    constructor
    · rintro ((h | ⟨rfl, hm⟩) | ⟨b, hb, rfl, hm⟩)
      · exact Or.inl h
      · exact Or.inr ⟨a, List.mem_cons_self a t, rfl, hm⟩
      · exact Or.inr ⟨b, List.mem_cons_of_mem a hb, rfl, hm⟩
    · rintro (h | ⟨b, hb, rfl, hm⟩)
      · exact Or.inl (Or.inl h)
      · rcases List.mem_cons.mp hb with rfl | hb2
        · exact Or.inl (Or.inr ⟨rfl, hm⟩)
        · exact Or.inr ⟨b, hb2, rfl, hm⟩

/-- In a list of entities with pairwise distinct ids, the id determines the entity. -/
lemma eq_of_mem_nodup_ids {l : List Entity} (hnd : (l.map Entity.id).Nodup)
    {a b : Entity} (ha : a ∈ l) (hb : b ∈ l) (h : a.id = b.id) : a = b := by
  induction l with
  | nil => cases ha
  | cons x t ih =>
    rw [List.map_cons, List.nodup_cons] at hnd
    rcases List.mem_cons.mp ha with rfl | ha2 <;> rcases List.mem_cons.mp hb with rfl | hb2
    · rfl
    · exact absurd (by rw [h]; exact List.mem_map_of_mem Entity.id hb2) hnd.1
    · exact absurd (by rw [← h]; exact List.mem_map_of_mem Entity.id ha2) hnd.1
    · exact ih hnd.2 ha2 hb2

/-- For a registration pass over entities with distinct ids, an entity of
the list that was not yet in the matched set ends in it exactly when its
signature matches. -/
lemma mem_foldl_addEntity_nodup (l : List Entity) (s : System) (e : Entity)
    (hel : e ∈ l) (hnd : (l.map Entity.id).Nodup) (hfresh : e.id ∉ s.entities) :
    e.id ∈ (l.foldl System.addEntity s).entities ↔ s.matchesRequirements e = true := by
  rw [mem_foldl_addEntity]
  constructor
  · rintro (h | ⟨a, hal, hid, hm⟩)
    · exact absurd h hfresh
    · rwa [eq_of_mem_nodup_ids hnd hal hel hid.symm] at hm
  · intro hm
    exact Or.inr ⟨e, hel, rfl, hm⟩

/-- Flushing a list of additions maps every system through the
corresponding registration pass. -/
lemma foldl_worldAddEntity_systems (l : List Entity) (w : World) :
    (l.foldl World.addEntity w).systemsArray =
      w.systemsArray.map fun s => l.foldl System.addEntity s := by
  induction l generalizing w with
  | nil => simp
  | cons a t ih =>
    rw [List.foldl_cons, ih]
    simp only [World.addEntity, List.map_map]
    rfl

lemma foldl_worldAddEntity_nextId (l : List Entity) (w : World) :
    (l.foldl World.addEntity w).nextId = w.nextId := by
  induction l generalizing w with
  | nil => rfl
  | cons a t ih => rw [List.foldl_cons, ih]; rfl

lemma flushAdds_systems (w : World) :
    w.flushAdds.systemsArray =
      w.systemsArray.map fun s => w.toAdd.foldl System.addEntity s := by
  unfold World.flushAdds
  exact foldl_worldAddEntity_systems _ _

lemma flushAdds_nextId (w : World) : w.flushAdds.nextId = w.nextId := by
  unfold World.flushAdds
  exact foldl_worldAddEntity_nextId _ _

lemma flushAdds_toAdd (w : World) : w.flushAdds.toAdd = [] := rfl

lemma foldl_removeStep_toAdd (l : List Nat) (w : World) :
    (l.foldl World.removeStep w).toAdd = w.toAdd := by
  induction l generalizing w with
  | nil => rfl
  | cons eid t ih => rw [List.foldl_cons, ih]; rfl

lemma foldl_removeStep_nextId (l : List Nat) (w : World) :
    (l.foldl World.removeStep w).nextId = w.nextId := by
  induction l generalizing w with
  | nil => rfl
  | cons eid t ih => rw [List.foldl_cons, ih]; rfl

lemma flushRemoves_toAdd (w : World) : w.flushRemoves.toAdd = w.toAdd := by
  unfold World.flushRemoves
  exact foldl_removeStep_toAdd _ _

lemma flushRemoves_nextId (w : World) : w.flushRemoves.nextId = w.nextId := by
  unfold World.flushRemoves
  exact foldl_removeStep_nextId _ _

/-- The addition flush introduces no id at or above the bound. -/
lemma flushAdds_bound (w : World) (n : Nat)
    (hsys : ∀ s ∈ w.systemsArray, ∀ i ∈ s.entities, i < n)
    (hta : ∀ e ∈ w.toAdd, e.id < n) :
    ∀ s ∈ w.flushAdds.systemsArray, ∀ i ∈ s.entities, i < n := by
  rw [flushAdds_systems]
  intro s2 hs2 i hi
  obtain ⟨s, hs, rfl⟩ := List.mem_map.mp hs2
  rcases (mem_foldl_addEntity _ _ _).mp hi with h | ⟨a, hal, rfl, _⟩
  · exact hsys s hs i h
  · exact hta a hal

/-- The removal flush only erases ids from matched sets. -/
lemma flushRemoves_bound (w : World) (n : Nat)
    (hsys : ∀ s ∈ w.systemsArray, ∀ i ∈ s.entities, i < n) :
    ∀ s ∈ w.flushRemoves.systemsArray, ∀ i ∈ s.entities, i < n := by
  unfold World.flushRemoves
  have key : ∀ (l : List Nat) (w : World),
      (∀ s ∈ w.systemsArray, ∀ i ∈ s.entities, i < n) →
      ∀ s ∈ (l.foldl World.removeStep w).systemsArray, ∀ i ∈ s.entities, i < n := by
    intro l
    induction l with
    | nil => intro w h; exact h
    | cons eid t ih =>
      intro w h
      rw [List.foldl_cons]
      refine ih _ ?_
      intro s2 hs2 i hi
      obtain ⟨s, hs, rfl⟩ := List.mem_map.mp hs2
      exact h s hs i (List.mem_of_mem_erase hi)
  exact key _ _ hsys

/-- No action performed by a running system changes any matched set. -/
lemma applyAction_systems (w : World) (a : GameAction) :
    (w.applyAction a).systemsArray = w.systemsArray := by
  cases a with
  | create comps => rfl
  | destroyEntity eid => rfl
  | queueRemove eid =>
    show (w.removeEntity eid).systemsArray = w.systemsArray
    unfold World.removeEntity
    split <;> rfl

lemma foldl_applyAction_systems (acts : List GameAction) (w : World) :
    (acts.foldl World.applyAction w).systemsArray = w.systemsArray := by
  induction acts generalizing w with
  | nil => rfl
  | cons a t ih => rw [List.foldl_cons, ih, applyAction_systems]

/-- Ids handed out during the action pass stay at or above the starting
counter, below the final counter, and pairwise distinct. -/
lemma applyAction_ids (n0 : Nat) (w : World) (a : GameAction)
    (hn : n0 ≤ w.nextId)
    (hta : ∀ e ∈ w.toAdd, n0 ≤ e.id ∧ e.id < w.nextId)
    (hnd : (w.toAdd.map Entity.id).Nodup) :
    n0 ≤ (w.applyAction a).nextId ∧
    (∀ e ∈ (w.applyAction a).toAdd, n0 ≤ e.id ∧ e.id < (w.applyAction a).nextId) ∧
    ((w.applyAction a).toAdd.map Entity.id).Nodup := by
  cases a with
  | create comps =>
    refine ⟨?_, ?_, ?_⟩
    · show n0 ≤ w.nextId + 1
      omega
    · intro e he
      have he2 : e ∈ w.toAdd ++ [({ id := w.nextId, components := comps, active := true } : Entity)] := he
      rw [List.mem_append, List.mem_singleton] at he2
      show n0 ≤ e.id ∧ e.id < w.nextId + 1
      rcases he2 with he2 | rfl
      · obtain ⟨h1, h2⟩ := hta e he2
        omega
      · show n0 ≤ w.nextId ∧ w.nextId < w.nextId + 1
        omega
    · show ((w.toAdd ++ [({ id := w.nextId, components := comps, active := true } : Entity)]).map Entity.id).Nodup
      rw [List.map_append]
      refine List.Nodup.append hnd (List.nodup_singleton _) ?_
      intro x hx hx2
      obtain ⟨e, he, rfl⟩ := List.mem_map.mp hx
      have hlt := (hta e he).2
      have : e.id = w.nextId := by simpa using hx2
      omega
  | destroyEntity eid => exact ⟨hn, hta, hnd⟩
  | queueRemove eid =>
    have hsame : (w.applyAction (GameAction.queueRemove eid)).toAdd = w.toAdd ∧
        (w.applyAction (GameAction.queueRemove eid)).nextId = w.nextId := by
      show (w.removeEntity eid).toAdd = w.toAdd ∧ (w.removeEntity eid).nextId = w.nextId
      unfold World.removeEntity
      split <;> exact ⟨rfl, rfl⟩
    rw [hsame.1, hsame.2]
    exact ⟨hn, hta, hnd⟩

lemma foldl_applyAction_ids (acts : List GameAction) (n0 : Nat) (w : World)
    (hn : n0 ≤ w.nextId)
    (hta : ∀ e ∈ w.toAdd, n0 ≤ e.id ∧ e.id < w.nextId)
    (hnd : (w.toAdd.map Entity.id).Nodup) :
    n0 ≤ (acts.foldl World.applyAction w).nextId ∧
    (∀ e ∈ (acts.foldl World.applyAction w).toAdd,
      n0 ≤ e.id ∧ e.id < (acts.foldl World.applyAction w).nextId) ∧
    (((acts.foldl World.applyAction w).toAdd.map Entity.id).Nodup) := by
  induction acts generalizing w with
  | nil => exact ⟨hn, hta, hnd⟩
  | cons a t ih =>
    obtain ⟨h1, h2, h3⟩ := applyAction_ids n0 w a hn hta hnd
    exact ih _ h1 h2 h3

/-- Claim C1 as the code actually behaves: in worldC1, entity 0 is live and
matched by the one system; during an update pass a system calls destroy()
on it; yet at the start of the following update (both flush phases done)
the entity is still present in the world table (now inactive with its
components cleared) and its id still sits in the matched set of the system.
Entity.destroy never enqueues into toRemove and nothing calls
World.removeEntity, so the removal flush never fires. -/
theorem destroyed_entity_persists :
    worldC1Next.entities = [(0, { id := 0, components := [], active := false })] ∧
    worldC1Next.systemsArray = [sysC1] ∧
    sysC1.entities = [0] :=
  ⟨rfl, rfl, rfl⟩

/-- Claim C2: membership in a matched set is decided exactly at the two
registration points. At an addEntity offer (used by the pending-add flush),
a not-yet-registered entity enters the matched set exactly when it holds
every required component; at the addSystem back-fill over a well-formed
table, likewise; and removing a component from a live entity leaves every
matched set untouched (membership is not re-evaluated). -/
theorem signature_matching_registration :
    (∀ (s : System) (e : Entity), e.id ∉ s.entities →
      (e.id ∈ (s.addEntity e).entities ↔ s.matchesRequirements e = true)) ∧
    (∀ (s : System) (tbl : List (Nat × Entity)) (e : Entity),
      s.entities = [] → (∀ p ∈ tbl, p.2.id = p.1) → (tbl.map Prod.fst).Nodup →
      e ∈ tbl.map Prod.snd →
      (e.id ∈ (backfillSystem s tbl).entities ↔ s.matchesRequirements e = true)) ∧
    (∀ (w : World) (eid : Nat) (c : String),
      (w.removeComponentFrom eid c).systemsArray = w.systemsArray) := by
  refine ⟨?_, ?_, ?_⟩
  · intro s e hni
    rw [mem_addEntity_iff]
    constructor
    · rintro (h | ⟨_, hm⟩)
      · exact absurd h hni
      · exact hm
    · intro hm
      exact Or.inr ⟨rfl, hm⟩
  · intro s tbl e hs htbl hnd he
    have hfold : backfillSystem s tbl = (tbl.map Prod.snd).foldl System.addEntity s := by
      rw [backfillSystem, List.foldl_map]
    have hmapeq : tbl.map (fun p => Entity.id p.2) = tbl.map Prod.fst :=
      List.map_congr_left htbl
    have hnd2 : ((tbl.map Prod.snd).map Entity.id).Nodup := by
      rw [List.map_map]
      exact hmapeq ▸ hnd
    rw [hfold]
    exact mem_foldl_addEntity_nodup _ _ _ he hnd2 (by simp [hs])
  · intro w eid c
    rfl

/-- Witness for claim C2: a fresh Transform-requiring system accepts the
Transform-holding entity 0 at both registration points, and a world-level
component removal leaves the system list untouched. -/
theorem signature_matching_registration_witness :
    ((0:Nat) ∉ sysW.entities ∧
      ((0:Nat) ∈ (sysW.addEntity entC1).entities ↔ sysW.matchesRequirements entC1 = true)) ∧
    ((entC1.id ∈ (backfillSystem sysW [(0, entC1)]).entities ↔
       sysW.matchesRequirements entC1 = true)) ∧
    (worldC1.removeComponentFrom 0 "Transform").systemsArray = worldC1.systemsArray :=
  ⟨⟨by decide, signature_matching_registration.1 sysW entC1 (by decide)⟩,
   signature_matching_registration.2.1 sysW [(0, entC1)] entC1 rfl
     (by decide) (by decide) (by decide),
   signature_matching_registration.2.2 worldC1 0 "Transform"⟩

/-- Claim C3: entities created during an update pass sit in the pending-add
queue: none of them is in any matched set for the remainder of that pass;
and at the start of the next update, the addition flush turns every system
into its registration pass over the queue, in which a queued entity appears
exactly when its signature matches. -/
theorem deferred_creation_invisible (w : World) (actions : List GameAction)
    (hsys : ∀ s ∈ w.systemsArray, ∀ i ∈ s.entities, i < w.nextId)
    (hta : ∀ e ∈ w.toAdd, e.id < w.nextId) :
    (∀ e ∈ (w.update actions).toAdd, ∀ s ∈ (w.update actions).systemsArray,
        e.id ∉ s.entities) ∧
    ((w.update actions).flushAdds.systemsArray =
      (w.update actions).systemsArray.map fun s =>
        (w.update actions).toAdd.foldl System.addEntity s) ∧
    (∀ e ∈ (w.update actions).toAdd, ∀ s ∈ (w.update actions).systemsArray,
      (e.id ∈ ((w.update actions).toAdd.foldl System.addEntity s).entities ↔
        s.matchesRequirements e = true)) := by
  have h0toAdd : w.flushAdds.flushRemoves.toAdd = [] := by
    rw [flushRemoves_toAdd, flushAdds_toAdd]
  have h0next : w.flushAdds.flushRemoves.nextId = w.nextId := by
    rw [flushRemoves_nextId, flushAdds_nextId]
  have h0sys : ∀ s ∈ w.flushAdds.flushRemoves.systemsArray, ∀ i ∈ s.entities, i < w.nextId :=
    flushRemoves_bound _ _ (flushAdds_bound _ _ hsys hta)
  have hupd_eq : w.update actions = actions.foldl World.applyAction w.flushAdds.flushRemoves :=
    rfl
  have hupd_sys : (w.update actions).systemsArray = w.flushAdds.flushRemoves.systemsArray := by
    rw [hupd_eq, foldl_applyAction_systems]
  have hids := foldl_applyAction_ids actions w.flushAdds.flushRemoves.nextId
    w.flushAdds.flushRemoves le_rfl
    (by rw [h0toAdd]; intro e he; cases he)
    (by rw [h0toAdd]; exact List.nodup_nil)
  have hfresh : ∀ e ∈ (w.update actions).toAdd, ∀ s ∈ (w.update actions).systemsArray,
      e.id ∉ s.entities := by
    intro e he s hs hmem
    rw [hupd_sys] at hs
    have h1 : w.nextId ≤ e.id := by
      have h2 := (hids.2.1 e (by rwa [hupd_eq] at he)).1
      rwa [h0next] at h2
    exact absurd (h0sys s hs e.id hmem) (not_lt.mpr h1)
  refine ⟨hfresh, flushAdds_systems _, ?_⟩
  intro e he s hs
  refine mem_foldl_addEntity_nodup _ _ _ he ?_ (hfresh e he s hs)
  rw [hupd_eq]
  exact hids.2.2

/-- Witness for claim C3: in the empty world holding the Transform system, a
system creates one Transform entity during the pass. -/
theorem deferred_creation_invisible_witness :
    ((∀ s ∈ worldFresh.systemsArray, ∀ i ∈ s.entities, i < worldFresh.nextId) ∧
     (∀ e ∈ worldFresh.toAdd, e.id < worldFresh.nextId)) ∧
    ((∀ e ∈ (worldFresh.update [GameAction.create ["Transform"]]).toAdd,
        ∀ s ∈ (worldFresh.update [GameAction.create ["Transform"]]).systemsArray,
          e.id ∉ s.entities) ∧
     ((worldFresh.update [GameAction.create ["Transform"]]).flushAdds.systemsArray =
       (worldFresh.update [GameAction.create ["Transform"]]).systemsArray.map fun s =>
         (worldFresh.update [GameAction.create ["Transform"]]).toAdd.foldl System.addEntity s) ∧
     (∀ e ∈ (worldFresh.update [GameAction.create ["Transform"]]).toAdd,
        ∀ s ∈ (worldFresh.update [GameAction.create ["Transform"]]).systemsArray,
          (e.id ∈ ((worldFresh.update [GameAction.create ["Transform"]]).toAdd.foldl
              System.addEntity s).entities ↔
            s.matchesRequirements e = true))) :=
  ⟨⟨by decide, by decide⟩,
   deferred_creation_invisible worldFresh [GameAction.create ["Transform"]]
     (by decide) (by decide)⟩

/-- The per-force accumulation loop does not touch maxSpeed. -/
lemma foldl_force_maxSpeed (l : List (Vec2 ℝ)) (m ds : ℝ) (v : Velocity ℝ) :
    (l.foldl (fun v f => { v with x := v.x + f.x / m * ds,
                                  y := v.y + f.y / m * ds }) v).maxSpeed = v.maxSpeed := by
  induction l generalizing v with
  | nil => rfl
  | cons f t ih => rw [List.foldl_cons, ih]

/-- The acceleration and rigid-body phases do not touch maxSpeed. -/
lemma preClampVelocity_maxSpeed (dt : ℝ) (e : MoveEnt) :
    (MovementSystem.preClampVelocity dt e).maxSpeed = e.velocity.maxSpeed := by
  cases hacc : e.acceleration <;> cases hrb : e.rigidBody <;>
    simp [MovementSystem.preClampVelocity, hacc, hrb, foldl_force_maxSpeed]

/-- The velocity stored by a movement step is the clamped phase output. -/
lemma updateEntity_velocity (dt : ℝ) (e : MoveEnt) :
    (MovementSystem.updateEntity dt e).velocity =
      MovementSystem.clampVelocity (MovementSystem.preClampVelocity dt e) := rfl

/-- The position integration of a movement step. -/
lemma updateEntity_transform_x (dt : ℝ) (e : MoveEnt) :
    (MovementSystem.updateEntity dt e).transform.x =
      e.transform.x + (MovementSystem.updateEntity dt e).velocity.x * (dt / 1000) * 60 := rfl

lemma updateEntity_transform_y (dt : ℝ) (e : MoveEnt) :
    (MovementSystem.updateEntity dt e).transform.y =
      e.transform.y + (MovementSystem.updateEntity dt e).velocity.y * (dt / 1000) * 60 := rfl

/-- The clamp keeps the magnitude at or below a nonnegative maxSpeed and
only rescales the vector by a nonnegative factor. -/
lemma clampVelocity_spec (v : Velocity ℝ) (hM : 0 ≤ v.maxSpeed) :
    Real.sqrt ((MovementSystem.clampVelocity v).x ^ 2 +
        (MovementSystem.clampVelocity v).y ^ 2) ≤ v.maxSpeed ∧
    ∃ c : ℝ, 0 ≤ c ∧ (MovementSystem.clampVelocity v).x = c * v.x ∧
      (MovementSystem.clampVelocity v).y = c * v.y := by
  simp only [MovementSystem.clampVelocity]
  by_cases hgt : Real.sqrt (v.x * v.x + v.y * v.y) > v.maxSpeed
  · rw [if_pos hgt]
    set s := Real.sqrt (v.x * v.x + v.y * v.y) with hs
    have hs0 : 0 < s := lt_of_le_of_lt hM hgt
    have hsq : s ^ 2 = v.x * v.x + v.y * v.y := by
      rw [hs]
      exact Real.sq_sqrt (add_nonneg (mul_self_nonneg _) (mul_self_nonneg _))
    have hcomp : (v.x / s * v.maxSpeed) ^ 2 + (v.y / s * v.maxSpeed) ^ 2
        = v.maxSpeed ^ 2 := by
      have h1 : (v.x / s * v.maxSpeed) ^ 2 + (v.y / s * v.maxSpeed) ^ 2
          = (v.x * v.x + v.y * v.y) * (v.maxSpeed ^ 2 / s ^ 2) := by
        field_simp
        ring
      rw [h1, ← hsq]
      field_simp
    constructor
    · show Real.sqrt ((v.x / s * v.maxSpeed) ^ 2 + (v.y / s * v.maxSpeed) ^ 2) ≤ v.maxSpeed
      rw [hcomp, Real.sqrt_sq hM]
    · refine ⟨v.maxSpeed / s, div_nonneg hM hs0.le, ?_, ?_⟩
      · show v.x / s * v.maxSpeed = v.maxSpeed / s * v.x
        ring
      · show v.y / s * v.maxSpeed = v.maxSpeed / s * v.y
        ring
  · rw [if_neg hgt]
    constructor
    · have heq : v.x ^ 2 + v.y ^ 2 = v.x * v.x + v.y * v.y := by ring
      rw [heq]
      exact not_lt.mp hgt
    · exact ⟨1, zero_le_one, (one_mul _).symm, (one_mul _).symm⟩

/-- When the magnitude is already within maxSpeed, the clamp is a no-op. -/
lemma clampVelocity_noop (v : Velocity ℝ)
    (hv : Real.sqrt (v.x ^ 2 + v.y ^ 2) ≤ v.maxSpeed) :
    MovementSystem.clampVelocity v = v := by
  simp only [MovementSystem.clampVelocity]
  rw [if_neg]
  rw [show v.x * v.x + v.y * v.y = v.x ^ 2 + v.y ^ 2 by ring]
  exact not_lt.mpr hv

/-- With no Acceleration and no RigidBody the velocity phases are the identity. -/
lemma preClampVelocity_none (dt : ℝ) (e : MoveEnt)
    (hacc : e.acceleration = none) (hrb : e.rigidBody = none) :
    MovementSystem.preClampVelocity dt e = e.velocity := by
  simp [MovementSystem.preClampVelocity, hacc, hrb]

/-- Claim C7: after a MovementSystem step on an entity whose Velocity has a
nonnegative maxSpeed M, the velocity magnitude is at most M (hence at most
M plus any tolerance), and the clamp only rescales the pre-clamp velocity
by one shared nonnegative factor, preserving its direction. -/
theorem movement_speed_clamped (dt : ℝ) (e : MoveEnt)
    (hM : 0 ≤ e.velocity.maxSpeed) :
    Real.sqrt ((MovementSystem.updateEntity dt e).velocity.x ^ 2 +
        (MovementSystem.updateEntity dt e).velocity.y ^ 2) ≤ e.velocity.maxSpeed ∧
    ∃ c : ℝ, 0 ≤ c ∧
      (MovementSystem.updateEntity dt e).velocity.x =
        c * (MovementSystem.preClampVelocity dt e).x ∧
      (MovementSystem.updateEntity dt e).velocity.y =
        c * (MovementSystem.preClampVelocity dt e).y := by
  have hpre : (MovementSystem.preClampVelocity dt e).maxSpeed = e.velocity.maxSpeed :=
    preClampVelocity_maxSpeed dt e
  have hspec := clampVelocity_spec (MovementSystem.preClampVelocity dt e)
    (by rw [hpre]; exact hM)
  rw [updateEntity_velocity]
  exact ⟨by rw [← hpre]; exact hspec.1, hspec.2⟩

/-- Witness for claim C7 at velocity (6, 8) with maxSpeed 5 and a 16 ms tick. -/
theorem movement_speed_clamped_witness :
    0 ≤ moveEntW.velocity.maxSpeed ∧
    (Real.sqrt ((MovementSystem.updateEntity 16 moveEntW).velocity.x ^ 2 +
        (MovementSystem.updateEntity 16 moveEntW).velocity.y ^ 2) ≤
          moveEntW.velocity.maxSpeed ∧
     ∃ c : ℝ, 0 ≤ c ∧
       (MovementSystem.updateEntity 16 moveEntW).velocity.x =
         c * (MovementSystem.preClampVelocity 16 moveEntW).x ∧
       (MovementSystem.updateEntity 16 moveEntW).velocity.y =
         c * (MovementSystem.preClampVelocity 16 moveEntW).y) :=
  ⟨by norm_num [moveEntW], movement_speed_clamped 16 moveEntW (by norm_num [moveEntW])⟩

/-- Claim C8: for a purely velocity-driven entity (no Acceleration, no
RigidBody) whose velocity magnitude does not exceed maxSpeed, one movement
step over dt1 + dt2 lands on the same position as a step over dt1 followed
by a step over dt2: Euler integration at a fixed velocity is additive in
the elapsed time. -/
theorem movement_additive (dt1 dt2 : ℝ) (e : MoveEnt)
    (hacc : e.acceleration = none) (hrb : e.rigidBody = none)
    (hv : Real.sqrt (e.velocity.x ^ 2 + e.velocity.y ^ 2) ≤ e.velocity.maxSpeed) :
    (MovementSystem.updateEntity (dt1 + dt2) e).transform.x =
      (MovementSystem.updateEntity dt2 (MovementSystem.updateEntity dt1 e)).transform.x ∧
    (MovementSystem.updateEntity (dt1 + dt2) e).transform.y =
      (MovementSystem.updateEntity dt2 (MovementSystem.updateEntity dt1 e)).transform.y := by
  have hclamp : MovementSystem.clampVelocity e.velocity = e.velocity :=
    clampVelocity_noop _ hv
  have hstep : ∀ dt, (MovementSystem.updateEntity dt e).velocity = e.velocity := by
    intro dt
    rw [updateEntity_velocity, preClampVelocity_none dt e hacc hrb, hclamp]
  have hacc2 : (MovementSystem.updateEntity dt1 e).acceleration = none := hacc
  have hrb2 : (MovementSystem.updateEntity dt1 e).rigidBody = none := by
    show e.rigidBody.map _ = none
    rw [hrb]
    rfl
  have hvel3 : (MovementSystem.updateEntity dt2 (MovementSystem.updateEntity dt1 e)).velocity =
      e.velocity := by
    rw [updateEntity_velocity, preClampVelocity_none dt2 _ hacc2 hrb2, hstep dt1, hclamp]
  constructor
  · rw [updateEntity_transform_x (dt1 + dt2) e, hstep,
      updateEntity_transform_x dt2 (MovementSystem.updateEntity dt1 e), hvel3,
      updateEntity_transform_x dt1 e, hstep]
    ring
  · rw [updateEntity_transform_y (dt1 + dt2) e, hstep,
      updateEntity_transform_y dt2 (MovementSystem.updateEntity dt1 e), hvel3,
      updateEntity_transform_y dt1 e, hstep]
    ring

/-- Witness for claim C8 at velocity (3, 4) with maxSpeed 5 and the split 7 + 9. -/
theorem movement_additive_witness :
    (moveEntW2.acceleration = none ∧ moveEntW2.rigidBody = none ∧
      Real.sqrt (moveEntW2.velocity.x ^ 2 + moveEntW2.velocity.y ^ 2) ≤
        moveEntW2.velocity.maxSpeed) ∧
    ((MovementSystem.updateEntity (7 + 9) moveEntW2).transform.x =
       (MovementSystem.updateEntity 9 (MovementSystem.updateEntity 7 moveEntW2)).transform.x ∧
     (MovementSystem.updateEntity (7 + 9) moveEntW2).transform.y =
       (MovementSystem.updateEntity 9 (MovementSystem.updateEntity 7 moveEntW2)).transform.y) :=
  ⟨⟨rfl, rfl, by
      show Real.sqrt ((3:ℝ) ^ 2 + 4 ^ 2) ≤ 5
      rw [show (3:ℝ) ^ 2 + 4 ^ 2 = 5 ^ 2 by norm_num,
        Real.sqrt_sq (by norm_num : (0:ℝ) ≤ 5)]⟩,
   movement_additive 7 9 moveEntW2 rfl rfl (by
      show Real.sqrt ((3:ℝ) ^ 2 + 4 ^ 2) ≤ 5
      rw [show (3:ℝ) ^ 2 + 4 ^ 2 = 5 ^ 2 by norm_num,
        Real.sqrt_sq (by norm_num : (0:ℝ) ≤ 5)])⟩
